import Mathlib

/-!
Shallow embedding of the AWS Lambda handler in src/lambda/handler.py and
proofs of the specification claims about it.

The handler is a single Python function. Its effectful collaborators are
modelled as injected data:
  - the BUCKET_NAME environment variable becomes an Option String field
    (None models an unset variable, some empty-string models an empty one);
  - the two datetime.utcnow() calls become reads of an injected clock,
    a function from the read index to an Instant; the handler performs
    read 0 when it builds the response_data timestamp (line 26 of the
    source) and read 1 when it builds the s3 key (line 32), in that order;
  - s3.put_object becomes an injected capability that, for a given call
    record, either succeeds (Except.ok) or raises an exception carrying a
    message string (Except.error), exactly the succeed-or-raise interface
    the spec describes;
  - the handler returns, next to its envelope, the list of put calls it
    attempted, so that claims about the number of storage writes are
    statements about the code rather than about an external mock.

Python values that flow into json.dumps are modelled by a JSON value type;
json.dumps with its default arguments and with indent equal to 2 is
implemented faithfully, including string escaping with ensure_ascii and
the separator conventions of the Python json module.
-/

mutual

/-- JSON values, mutually with lists of values and objects as ordered
association lists (Python dicts preserve insertion order, which is the
order json.dumps serializes keys in). -/
inductive Json where
  | null : Json
  | bool : Bool → Json
  | num : Int → Json
  | str : String → Json
  | arr : JsonList → Json
  | obj : JsonObj → Json

inductive JsonList where
  | nil : JsonList
  | cons : Json → JsonList → JsonList

inductive JsonObj where
  | nil : JsonObj
  | cons : String → Json → JsonObj → JsonObj

end

/-- Look a key up in an object, first match wins (Python dicts cannot hold
a duplicate key, and the objects the handler builds never shadow). -/
def JsonObj.lookupKey : JsonObj → String → Option Json
  | .nil, _ => none
  | .cons k v kvs, key => if key = k then some v else JsonObj.lookupKey kvs key

/-- Field access on a JSON value: some value for a present key of an
object, none otherwise. -/
def Json.lookup : Json → String → Option Json
  | .obj kvs, key => kvs.lookupKey key
  | _, _ => none

/-- Keys of an object in serialization order. -/
def JsonObj.keys : JsonObj → List String
  | .nil => []
  | .cons k _ kvs => k :: JsonObj.keys kvs

/-- Keys of a JSON value (empty for non-objects). -/
def Json.keys : Json → List String
  | .obj kvs => kvs.keys
  | _ => []

def JsonList.isNil : JsonList → Bool
  | .nil => true
  | .cons _ _ => false

def JsonObj.isNil : JsonObj → Bool
  | .nil => true
  | .cons _ _ _ => false

/-- Decimal digit character: 0 maps to the character 0, 9 to 9. -/
def digitChar (n : Nat) : Char := Char.ofNat (48 + n)

/-- Lowercase hexadecimal digit character, as Python json uses in
unicode escapes. -/
def hexDigitChar (n : Nat) : Char :=
  if n < 10 then Char.ofNat (48 + n) else Char.ofNat (87 + n)

/-- Four lowercase hex digits, the payload of a JSON unicode escape. -/
def hex4 (n : Nat) : String :=
  String.mk [hexDigitChar (n / 4096 % 16), hexDigitChar (n / 256 % 16),
             hexDigitChar (n / 16 % 16), hexDigitChar (n % 16)]

/-- Escape one character the way Python json.dumps does with its default
ensure_ascii setting: the two-character escapes for quote, backslash and
the common control characters, unicode escapes for other control
characters and for everything outside printable ASCII (with a surrogate
pair above the basic multilingual plane), and the character itself
otherwise. -/
def escapeChar (c : Char) : String :=
  if c = '\"' then "\\\""
  else if c = '\\' then "\\\\"
  else if c.toNat = 8 then "\\b"
  else if c.toNat = 9 then "\\t"
  else if c.toNat = 10 then "\\n"
  else if c.toNat = 12 then "\\f"
  else if c.toNat = 13 then "\\r"
  else if c.toNat < 32 ∨ c.toNat > 126 then
    if c.toNat < 65536 then "\\u" ++ hex4 c.toNat
    else "\\u" ++ hex4 (55296 + (c.toNat - 65536) / 1024) ++
         "\\u" ++ hex4 (56320 + (c.toNat - 65536) % 1024)
  else String.mk [c]

def escapeCharsList : List Char → String
  | [] => ""
  | c :: cs => escapeChar c ++ escapeCharsList cs

/-- A JSON string literal: escaped content between double quotes. -/
def escapeString (s : String) : String := "\"" ++ escapeCharsList s.data ++ "\""

mutual

/-- Compact serialization: json.dumps with default arguments, whose item
separator is a comma followed by a space and whose key separator is a
colon followed by a space. Used by the handler for the failure body. -/
def dumpsC : Json → String
  | .null => "null"
  | .bool true => "true"
  | .bool false => "false"
  | .num n => toString n
  | .str s => escapeString s
  | .arr xs => "[" ++ String.intercalate ", " (dumpsCList xs) ++ "]"
  | .obj kvs => "\x7b" ++ String.intercalate ", " (dumpsCObj kvs) ++ "\x7d"

def dumpsCList : JsonList → List String
  | .nil => []
  | .cons x xs => dumpsC x :: dumpsCList xs

def dumpsCObj : JsonObj → List String
  | .nil => []
  | .cons k v kvs => (escapeString k ++ ": " ++ dumpsC v) :: dumpsCObj kvs

end

def nspaces (n : Nat) : String := String.mk (List.replicate n ' ')

mutual

/-- Indented serialization: json.dumps with indent equal to 2, whose item
separator is a comma followed by a newline and the next indentation,
whose key separator is a colon followed by a space, and which prints
empty containers without inner whitespace. The lvl argument is the
current nesting depth. Used by the handler for the stored object body and
the success body. -/
def dumpsI (lvl : Nat) : Json → String
  | .null => "null"
  | .bool true => "true"
  | .bool false => "false"
  | .num n => toString n
  | .str s => escapeString s
  | .arr xs =>
      if xs.isNil then "[]"
      else "[\n" ++ String.intercalate ",\n" (dumpsIList (lvl + 1) xs) ++
           "\n" ++ nspaces (2 * lvl) ++ "]"
  | .obj kvs =>
      if kvs.isNil then "\x7b\x7d"
      else "\x7b\n" ++ String.intercalate ",\n" (dumpsIObj (lvl + 1) kvs) ++
           "\n" ++ nspaces (2 * lvl) ++ "\x7d"

def dumpsIList (lvl : Nat) : JsonList → List String
  | .nil => []
  | .cons x xs => (nspaces (2 * lvl) ++ dumpsI lvl x) :: dumpsIList lvl xs

def dumpsIObj (lvl : Nat) : JsonObj → List String
  | .nil => []
  | .cons k v kvs =>
      (nspaces (2 * lvl) ++ escapeString k ++ ": " ++ dumpsI lvl v) :: dumpsIObj lvl kvs

end

/-- A UTC instant as datetime.utcnow() returns it: calendar fields plus
microseconds. -/
structure Instant where
  year : Nat
  month : Nat
  day : Nat
  hour : Nat
  minute : Nat
  second : Nat
  micro : Nat

/-- Two-digit zero-padded decimal field, as the strftime directives for
month, day, hour, minute and second and the isoformat rendering produce
for the calendar ranges a datetime can hold. -/
def pad2 (n : Nat) : String := String.mk [digitChar (n / 10 % 10), digitChar (n % 10)]

/-- Four-digit zero-padded year, as isoformat always renders it and as
strftime renders it for the years a real clock returns. -/
def pad4 (n : Nat) : String :=
  String.mk [digitChar (n / 1000 % 10), digitChar (n / 100 % 10),
             digitChar (n / 10 % 10), digitChar (n % 10)]

/-- Six-digit zero-padded microsecond field of isoformat. -/
def pad6 (n : Nat) : String :=
  String.mk [digitChar (n / 100000 % 10), digitChar (n / 10000 % 10),
             digitChar (n / 1000 % 10), digitChar (n / 100 % 10),
             digitChar (n / 10 % 10), digitChar (n % 10)]

/-- The date half of the strftime format the handler uses for the key. -/
def strftimeDate (i : Instant) : String :=
  pad4 i.year ++ "-" ++ pad2 i.month ++ "-" ++ pad2 i.day

/-- The time half of the strftime format the handler uses for the key. -/
def strftimeTime (i : Instant) : String :=
  pad2 i.hour ++ "-" ++ pad2 i.minute ++ "-" ++ pad2 i.second

/-- datetime.isoformat of a UTC naive datetime: date, the letter T, time,
and the microsecond field exactly when it is nonzero. -/
def isoformat (i : Instant) : String :=
  pad4 i.year ++ "-" ++ pad2 i.month ++ "-" ++ pad2 i.day ++ "T" ++
  pad2 i.hour ++ ":" ++ pad2 i.minute ++ ":" ++ pad2 i.second ++
  (if i.micro = 0 then "" else "." ++ pad6 i.micro)

/-- One s3.put_object call as the handler issues it: the keyword
arguments Bucket, Key, Body and ContentType. -/
structure S3Call where
  bucket : String
  key : String
  body : String
  contentType : String

/-- The envelope the handler returns on every path. -/
structure HandlerResult where
  statusCode : Nat
  body : String
  headers : List (String × String)

/-- The injected world the handler runs against: the BUCKET_NAME
environment variable, the clock indexed by read order, and the behaviour
of the storage write capability on each possible call. -/
structure Config where
  bucketName : Option String
  clock : Nat → Instant
  putResult : S3Call → Except String Unit

/-- Lines 24 to 29 of the source: the response_data dict, with its keys
in insertion order. -/
def responseDataJson (ts : String) (event : Json) (bucket : String) : Json :=
  .obj (.cons "message" (.str "Hello from Lambda!")
        (.cons "timestamp" (.str ts)
          (.cons "event" event
            (.cons "bucket" (.str bucket) .nil))))

/-- Line 32 of the source: the derived storage key. -/
def s3KeyAt (i : Instant) : String :=
  "lambda-executions/" ++ strftimeDate i ++ "/" ++ strftimeTime i ++ ".json"

/-- The single put call of lines 34 to 39: clock read 0 feeds the body
timestamp (the dict is created before the key), clock read 1 feeds the
key. -/
def attemptedCall (cfg : Config) (event : Json) (bn : String) : S3Call :=
  ⟨bn, s3KeyAt (cfg.clock 1),
   dumpsI 0 (responseDataJson (isoformat (cfg.clock 0)) event bn),
   "application/json"⟩

/-- Lines 43 to 53 of the source: the success body dict. -/
def successBodyJson (rd : Json) (bucket key : String) : Json :=
  .obj (.cons "message" (.str "Success!")
        (.cons "data" rd
          (.cons "s3_location" (.str ("s3://" ++ bucket ++ "/" ++ key)) .nil)))

/-- Lines 55 to 67 of the source: the except branch, receiving str(e). -/
def errorResult (msg : String) : HandlerResult :=
  ⟨500, dumpsC (.obj (.cons "error" (.str ("Error: " ++ msg)) .nil)),
   [("Content-Type", "application/json")]⟩

/-- The 200 envelope of lines 43 to 53. -/
def successResult (cfg : Config) (event : Json) (bn : String) : HandlerResult :=
  ⟨200, dumpsI 0 (successBodyJson (responseDataJson (isoformat (cfg.clock 0)) event bn)
                   bn (s3KeyAt (cfg.clock 1))),
   [("Content-Type", "application/json")]⟩

/-- The part of the try block that runs once the bucket name validated:
build the record, build the key, attempt the one put, and either return
the 200 envelope or fall into the except branch with the raised message. -/
def handlerWithBucket (cfg : Config) (event : Json) (bn : String) :
    HandlerResult × List S3Call :=
  match cfg.putResult (attemptedCall cfg event bn) with
  | .error m => (errorResult m, [attemptedCall cfg event bn])
  | .ok _ => (successResult cfg event bn, [attemptedCall cfg event bn])

/-- The handler of src/lambda/handler.py. The first component is the
returned envelope, the second the list of s3.put_object calls attempted
during the invocation. A missing BUCKET_NAME and an empty BUCKET_NAME
both fail the truthiness test on line 20 and raise the ValueError that
the except branch turns into the 500 envelope; str of that ValueError is
its message text. The context argument is accepted and never used,
exactly as in the source. -/
def handler (cfg : Config) (event context : Json) : HandlerResult × List S3Call :=
  match cfg.bucketName with
  | none => (errorResult "BUCKET_NAME environment variable not set", [])
  | some bn =>
    if bn = "" then (errorResult "BUCKET_NAME environment variable not set", [])
    else handlerWithBucket cfg event bn

/-- A character is a decimal digit. -/
def digitCharP (c : Char) : Prop := 48 ≤ c.toNat ∧ c.toNat ≤ 57

/-- The string consists of four digits, a dash, two digits, a dash and
two digits, the shape the date regex of the spec describes. -/
def dateShaped (s : String) : Prop :=
  ∃ c1 c2 c3 c4 c5 c6 c7 c8,
    s.data = [c1, c2, c3, c4, '-', c5, c6, '-', c7, c8] ∧
    digitCharP c1 ∧ digitCharP c2 ∧ digitCharP c3 ∧ digitCharP c4 ∧
    digitCharP c5 ∧ digitCharP c6 ∧ digitCharP c7 ∧ digitCharP c8

/-- The string consists of three two-digit groups separated by dashes,
the shape the time regex of the spec describes. -/
def timeShaped (s : String) : Prop :=
  ∃ c1 c2 c3 c4 c5 c6,
    s.data = [c1, c2, '-', c3, c4, '-', c5, c6] ∧
    digitCharP c1 ∧ digitCharP c2 ∧ digitCharP c3 ∧
    digitCharP c4 ∧ digitCharP c5 ∧ digitCharP c6

/-- A fixed instant used to instantiate theorems: the scenario clock of
the spec, 2024-01-02T03:04:05Z. -/
def instW : Instant := ⟨2024, 1, 2, 3, 4, 5, 0⟩

/-- A second fixed instant one second later, for the two-clock-reads
claim. -/
def instB : Instant := ⟨2024, 1, 2, 3, 4, 6, 0⟩

/-- The scenario event of the spec. -/
def eventW : Json := .obj (.cons "foo" (.str "bar") .nil)

/-- An arbitrary opaque context value. -/
def ctxW : Json := .null

/-- Configuration of the success scenario: bucket my-bucket, scenario
clock, storage writes succeed. -/
def cfgW : Config := ⟨some "my-bucket", fun _ => instW, fun _ => .ok ()⟩

/-- Configuration with BUCKET_NAME unset. -/
def cfgNoneW : Config := ⟨none, fun _ => instW, fun _ => .ok ()⟩

/-- Configuration whose storage write raises with the message
AccessDenied. -/
def cfgErrW : Config := ⟨some "my-bucket", fun _ => instW, fun _ => .error "AccessDenied"⟩

/-- Configuration whose two clock reads return different instants: read
0 the scenario instant, every later read one second after it. -/
def cfgTwoW : Config :=
  ⟨some "my-bucket", fun n => if n = 0 then instW else instB, fun _ => .ok ()⟩

theorem digitChar_bounds (k : Nat) (hk : k < 10) : digitCharP (digitChar k) := by
  interval_cases k <;> exact ⟨by decide, by decide⟩

theorem strftimeDate_shaped (i : Instant) : dateShaped (strftimeDate i) := by
  refine ⟨_, _, _, _, _, _, _, _, rfl, ?_, ?_, ?_, ?_, ?_, ?_, ?_, ?_⟩ <;>
    exact digitChar_bounds _ (Nat.mod_lt _ (by omega))

theorem strftimeTime_shaped (i : Instant) : timeShaped (strftimeTime i) := by
  refine ⟨_, _, _, _, _, _, rfl, ?_, ?_, ?_, ?_, ?_, ?_⟩ <;>
    exact digitChar_bounds _ (Nat.mod_lt _ (by omega))

theorem str_append_empty (s : String) : s ++ "" = s := by
  cases s with
  | mk data =>
      show String.mk (data ++ []) = String.mk data
      rw [List.append_nil]

theorem handler_none (cfg : Config) (event context : Json)
    (h : cfg.bucketName = none) :
    handler cfg event context =
      (errorResult "BUCKET_NAME environment variable not set", []) := by
  unfold handler
  rw [h]

theorem handler_empty (cfg : Config) (event context : Json)
    (h : cfg.bucketName = some "") :
    handler cfg event context =
      (errorResult "BUCKET_NAME environment variable not set", []) := by
  unfold handler
  rw [h]
  rfl

theorem handler_some (cfg : Config) (event context : Json) (bn : String)
    (hbn : cfg.bucketName = some bn) (hne : bn ≠ "") :
    handler cfg event context = handlerWithBucket cfg event bn := by
  unfold handler
  rw [hbn]
  exact if_neg hne

theorem handlerWithBucket_ok (cfg : Config) (event : Json) (bn : String) (u : Unit)
    (h : cfg.putResult (attemptedCall cfg event bn) = Except.ok u) :
    handlerWithBucket cfg event bn =
      (successResult cfg event bn, [attemptedCall cfg event bn]) := by
  unfold handlerWithBucket
  rw [h]

theorem handlerWithBucket_error (cfg : Config) (event : Json) (bn m : String)
    (h : cfg.putResult (attemptedCall cfg event bn) = Except.error m) :
    handlerWithBucket cfg event bn =
      (errorResult m, [attemptedCall cfg event bn]) := by
  unfold handlerWithBucket
  rw [h]

theorem handler_calls (cfg : Config) (event context : Json) (bn : String)
    (hbn : cfg.bucketName = some bn) (hne : bn ≠ "") :
    (handler cfg event context).2 = [attemptedCall cfg event bn] := by
  rw [handler_some cfg event context bn hbn hne]
  unfold handlerWithBucket
  cases h : cfg.putResult (attemptedCall cfg event bn) with
  | error m => rfl
  | ok u => rfl

/-- C1: whenever BUCKET_NAME resolves to a non-empty string and every
storage write succeeds, the handler returns statusCode 200; its body is
the indented serialization of the success object, whose message field is
the literal string Success!, whose data.event field is the input event
itself (deep equality is equality of JSON values), and whose s3_location
field is the string s3:// followed by the destination, a slash, and the
key lambda-executions/date/time.json with a four-two-two digit date and
a two-two-two digit time. -/
theorem c1_success_envelope (cfg : Config) (event context : Json) (bn : String)
    (hbn : cfg.bucketName = some bn) (hne : bn ≠ "")
    (hput : ∀ c, cfg.putResult c = Except.ok ()) :
    (handler cfg event context).1.statusCode = 200 ∧
    (handler cfg event context).1.body =
      dumpsI 0 (successBodyJson (responseDataJson (isoformat (cfg.clock 0)) event bn)
                 bn (s3KeyAt (cfg.clock 1))) ∧
    Json.lookup (successBodyJson (responseDataJson (isoformat (cfg.clock 0)) event bn)
                   bn (s3KeyAt (cfg.clock 1))) "message" = some (Json.str "Success!") ∧
    Json.lookup (successBodyJson (responseDataJson (isoformat (cfg.clock 0)) event bn)
                   bn (s3KeyAt (cfg.clock 1))) "data" =
      some (responseDataJson (isoformat (cfg.clock 0)) event bn) ∧
    Json.lookup (responseDataJson (isoformat (cfg.clock 0)) event bn) "event" = some event ∧
    Json.lookup (successBodyJson (responseDataJson (isoformat (cfg.clock 0)) event bn)
                   bn (s3KeyAt (cfg.clock 1))) "s3_location" =
      some (Json.str ("s3://" ++ bn ++ "/" ++ s3KeyAt (cfg.clock 1))) ∧
    s3KeyAt (cfg.clock 1) =
      "lambda-executions/" ++ strftimeDate (cfg.clock 1) ++ "/" ++
        strftimeTime (cfg.clock 1) ++ ".json" ∧
    dateShaped (strftimeDate (cfg.clock 1)) ∧ timeShaped (strftimeTime (cfg.clock 1)) := by
  rw [handler_some cfg event context bn hbn hne,
      handlerWithBucket_ok cfg event bn () (hput _)]
  exact ⟨rfl, rfl, rfl, rfl, rfl, rfl, rfl,
         strftimeDate_shaped _, strftimeTime_shaped _⟩

/-- Witness for c1_success_envelope at the scenario input of the spec:
bucket my-bucket, event with one key foo, clock at 2024-01-02T03:04:05Z,
writes succeeding. -/
theorem c1_success_envelope_witness :
    (handler cfgW eventW ctxW).1.statusCode = 200 ∧
    (handler cfgW eventW ctxW).1.body =
      dumpsI 0 (successBodyJson (responseDataJson (isoformat (cfgW.clock 0)) eventW "my-bucket")
                 "my-bucket" (s3KeyAt (cfgW.clock 1))) ∧
    Json.lookup (successBodyJson (responseDataJson (isoformat (cfgW.clock 0)) eventW "my-bucket")
                   "my-bucket" (s3KeyAt (cfgW.clock 1))) "message" = some (Json.str "Success!") ∧
    Json.lookup (successBodyJson (responseDataJson (isoformat (cfgW.clock 0)) eventW "my-bucket")
                   "my-bucket" (s3KeyAt (cfgW.clock 1))) "data" =
      some (responseDataJson (isoformat (cfgW.clock 0)) eventW "my-bucket") ∧
    Json.lookup (responseDataJson (isoformat (cfgW.clock 0)) eventW "my-bucket") "event" =
      some eventW ∧
    Json.lookup (successBodyJson (responseDataJson (isoformat (cfgW.clock 0)) eventW "my-bucket")
                   "my-bucket" (s3KeyAt (cfgW.clock 1))) "s3_location" =
      some (Json.str ("s3://" ++ "my-bucket" ++ "/" ++ s3KeyAt (cfgW.clock 1))) ∧
    s3KeyAt (cfgW.clock 1) =
      "lambda-executions/" ++ strftimeDate (cfgW.clock 1) ++ "/" ++
        strftimeTime (cfgW.clock 1) ++ ".json" ∧
    dateShaped (strftimeDate (cfgW.clock 1)) ∧ timeShaped (strftimeTime (cfgW.clock 1)) :=
  c1_success_envelope cfgW eventW ctxW "my-bucket" rfl (by decide) (fun _ => rfl)

/-- C2: whenever BUCKET_NAME is unset or empty, the handler returns
statusCode 500, its body is the compact serialization of an object whose
single error field contains the text BUCKET_NAME environment variable
not set, and no storage write is attempted. -/
theorem c2_config_gate (cfg : Config) (event context : Json)
    (h : cfg.bucketName = none ∨ cfg.bucketName = some "") :
    (handler cfg event context).1.statusCode = 500 ∧
    (∃ e : String,
      (handler cfg event context).1.body = dumpsC (.obj (.cons "error" (.str e) .nil)) ∧
      ∃ pre post : String,
        e = pre ++ "BUCKET_NAME environment variable not set" ++ post) ∧
    (handler cfg event context).2 = [] := by
  rcases h with h | h
  · rw [handler_none cfg event context h]
    exact ⟨rfl, ⟨"Error: BUCKET_NAME environment variable not set", rfl,
                 "Error: ", "", rfl⟩, rfl⟩
  · rw [handler_empty cfg event context h]
    exact ⟨rfl, ⟨"Error: BUCKET_NAME environment variable not set", rfl,
                 "Error: ", "", rfl⟩, rfl⟩

/-- Witness for c2_config_gate at a configuration with BUCKET_NAME
unset. -/
theorem c2_config_gate_witness :
    (handler cfgNoneW eventW ctxW).1.statusCode = 500 ∧
    (∃ e : String,
      (handler cfgNoneW eventW ctxW).1.body = dumpsC (.obj (.cons "error" (.str e) .nil)) ∧
      ∃ pre post : String,
        e = pre ++ "BUCKET_NAME environment variable not set" ++ post) ∧
    (handler cfgNoneW eventW ctxW).2 = [] :=
  c2_config_gate cfgNoneW eventW ctxW (Or.inl rfl)

/-- C3: whenever the storage write raises with message text m, the
handler returns statusCode 500 and its body is the compact serialization
of an object whose error field starts with the prefix Error: (with a
space) and contains m. -/
theorem c3_write_error_envelope (cfg : Config) (event context : Json) (bn m : String)
    (hbn : cfg.bucketName = some bn) (hne : bn ≠ "")
    (hm : cfg.putResult (attemptedCall cfg event bn) = Except.error m) :
    (handler cfg event context).1.statusCode = 500 ∧
    ∃ e : String,
      (handler cfg event context).1.body = dumpsC (.obj (.cons "error" (.str e) .nil)) ∧
      (∃ rest : String, e = "Error: " ++ rest) ∧
      (∃ pre post : String, e = pre ++ m ++ post) := by
  rw [handler_some cfg event context bn hbn hne,
      handlerWithBucket_error cfg event bn m hm]
  exact ⟨rfl, "Error: " ++ m, rfl, ⟨m, rfl⟩,
         ⟨"Error: ", "", (str_append_empty ("Error: " ++ m)).symm⟩⟩

/-- Witness for c3_write_error_envelope at a configuration whose write
raises with message AccessDenied. -/
theorem c3_write_error_envelope_witness :
    (handler cfgErrW eventW ctxW).1.statusCode = 500 ∧
    ∃ e : String,
      (handler cfgErrW eventW ctxW).1.body = dumpsC (.obj (.cons "error" (.str e) .nil)) ∧
      (∃ rest : String, e = "Error: " ++ rest) ∧
      (∃ pre post : String, e = pre ++ "AccessDenied" ++ post) :=
  c3_write_error_envelope cfgErrW eventW ctxW "my-bucket" "AccessDenied" rfl (by decide) rfl

/-- C4: for every configuration, event, context and behaviour of the
storage write, the handler returns normally with a value of the fixed
envelope shape (it is a total function into HandlerResult, a structure
with exactly the fields statusCode, body and headers), the headers are
exactly the single pair Content-Type application/json, and the status is
200 or 500, on the success path and on both failure paths. -/
theorem c4_total_envelope_shape (cfg : Config) (event context : Json) :
    (handler cfg event context).1.headers = [("Content-Type", "application/json")] ∧
    ((handler cfg event context).1.statusCode = 200 ∨
     (handler cfg event context).1.statusCode = 500) := by
  rcases hb : cfg.bucketName with _ | bn
  · rw [handler_none cfg event context hb]
    exact ⟨rfl, Or.inr rfl⟩
  · by_cases he : bn = ""
    · subst he
      rw [handler_empty cfg event context hb]
      exact ⟨rfl, Or.inr rfl⟩
    · rw [handler_some cfg event context bn hb he]
      cases hp : cfg.putResult (attemptedCall cfg event bn) with
      | error m =>
          rw [handlerWithBucket_error cfg event bn m hp]
          exact ⟨rfl, Or.inr rfl⟩
      | ok u =>
          rw [handlerWithBucket_ok cfg event bn u hp]
          exact ⟨rfl, Or.inl rfl⟩

/-- C5: every invocation that reaches the write issues its put with the
key lambda-executions/date/time.json built from the clock read at key
construction time (read 1), where date is the four-two-two digit
YYYY-MM-DD rendering and time the two-two-two digit HH-MM-SS rendering
of that instant; at the scenario clock 2024-01-02T03:04:05Z the key is
lambda-executions/2024-01-02/03-04-05.json. -/
theorem c5_key_format (cfg : Config) (event context : Json) (bn : String)
    (hbn : cfg.bucketName = some bn) (hne : bn ≠ "") :
    (handler cfg event context).2 = [attemptedCall cfg event bn] ∧
    (attemptedCall cfg event bn).key =
      "lambda-executions/" ++ strftimeDate (cfg.clock 1) ++ "/" ++
        strftimeTime (cfg.clock 1) ++ ".json" ∧
    dateShaped (strftimeDate (cfg.clock 1)) ∧
    timeShaped (strftimeTime (cfg.clock 1)) ∧
    s3KeyAt (Instant.mk 2024 1 2 3 4 5 0) = "lambda-executions/2024-01-02/03-04-05.json" :=
  ⟨handler_calls cfg event context bn hbn hne, rfl,
   strftimeDate_shaped _, strftimeTime_shaped _, rfl⟩

/-- Witness for c5_key_format at the scenario configuration. -/
theorem c5_key_format_witness :
    (handler cfgW eventW ctxW).2 = [attemptedCall cfgW eventW "my-bucket"] ∧
    (attemptedCall cfgW eventW "my-bucket").key =
      "lambda-executions/" ++ strftimeDate (cfgW.clock 1) ++ "/" ++
        strftimeTime (cfgW.clock 1) ++ ".json" ∧
    dateShaped (strftimeDate (cfgW.clock 1)) ∧
    timeShaped (strftimeTime (cfgW.clock 1)) ∧
    s3KeyAt (Instant.mk 2024 1 2 3 4 5 0) = "lambda-executions/2024-01-02/03-04-05.json" :=
  c5_key_format cfgW eventW ctxW "my-bucket" rfl (by decide)

/-- C6: the put capability is invoked at most once per invocation, with
no retry: the list of attempted calls never holds more than one element;
it holds exactly one when the envelope is the 200 success, and it is
empty when the invocation fails at the configuration gate before the
write. -/
theorem c6_single_write (cfg : Config) (event context : Json) :
    (handler cfg event context).2.length ≤ 1 ∧
    ((handler cfg event context).1.statusCode = 200 →
      (handler cfg event context).2.length = 1) ∧
    (cfg.bucketName = none ∨ cfg.bucketName = some "" →
      (handler cfg event context).2 = []) := by
  rcases hb : cfg.bucketName with _ | bn
  · rw [handler_none cfg event context hb]
    exact ⟨Nat.zero_le 1, fun h => absurd (show (500 : Nat) = 200 from h) (by decide),
           fun _ => rfl⟩
  · by_cases he : bn = ""
    · subst he
      rw [handler_empty cfg event context hb]
      exact ⟨Nat.zero_le 1, fun h => absurd (show (500 : Nat) = 200 from h) (by decide),
             fun _ => rfl⟩
    · rw [handler_some cfg event context bn hb he]
      have hnone : ¬(some bn = none ∨ some bn = (some "" : Option String)) := by
        rintro (h | h)
        · exact Option.noConfusion h
        · exact he (Option.some.inj h)
      cases hp : cfg.putResult (attemptedCall cfg event bn) with
      | error m =>
          rw [handlerWithBucket_error cfg event bn m hp]
          exact ⟨Nat.le_refl 1, fun h => absurd (show (500 : Nat) = 200 from h) (by decide),
                 fun h => absurd h hnone⟩
      | ok u =>
          rw [handlerWithBucket_ok cfg event bn u hp]
          exact ⟨Nat.le_refl 1, fun _ => rfl, fun h => absurd h hnone⟩

/-- Witness for c6_single_write: at the scenario configuration the 200
implication yields exactly one call, and at the unset-bucket
configuration the gate implication yields no call. -/
theorem c6_single_write_witness :
    (handler cfgW eventW ctxW).2.length = 1 ∧
    (handler cfgNoneW eventW ctxW).2 = [] :=
  ⟨(c6_single_write cfgW eventW ctxW).2.1 rfl,
   (c6_single_write cfgNoneW eventW ctxW).2.2 (Or.inl rfl)⟩

/-- C7 counterexample: at the scenario invocation the handler succeeds
and the ResponseRecord embedded under data and serialized to the stored
object is the response_data object, which has no field named
destination: looking that key up yields none, so the record does not
contain a field named destination holding the resolved identifier. -/
theorem c7_no_destination_field :
    (handler cfgW eventW ctxW).1.statusCode = 200 ∧
    (handler cfgW eventW ctxW).1.body =
      dumpsI 0 (successBodyJson (responseDataJson (isoformat instW) eventW "my-bucket")
                 "my-bucket" (s3KeyAt instW)) ∧
    (attemptedCall cfgW eventW "my-bucket").body =
      dumpsI 0 (responseDataJson (isoformat instW) eventW "my-bucket") ∧
    Json.lookup (responseDataJson (isoformat instW) eventW "my-bucket") "destination" = none :=
  ⟨rfl, rfl, rfl, rfl⟩

/-- C7 as amended: for every successful invocation the ResponseRecord,
embedded under data in the success body and serialized to the stored
object, contains a field named bucket whose value is the resolved
configuration identifier (the spec names this field destination; in the
code and in the serialized record its name is bucket). -/
theorem c7_bucket_field (cfg : Config) (event context : Json) (bn : String)
    (hbn : cfg.bucketName = some bn) (hne : bn ≠ "")
    (hput : ∀ c, cfg.putResult c = Except.ok ()) :
    (handler cfg event context).1.body =
      dumpsI 0 (successBodyJson (responseDataJson (isoformat (cfg.clock 0)) event bn)
                 bn (s3KeyAt (cfg.clock 1))) ∧
    (handler cfg event context).2 = [attemptedCall cfg event bn] ∧
    (attemptedCall cfg event bn).body =
      dumpsI 0 (responseDataJson (isoformat (cfg.clock 0)) event bn) ∧
    Json.lookup (responseDataJson (isoformat (cfg.clock 0)) event bn) "bucket" =
      some (Json.str bn) := by
  rw [handler_some cfg event context bn hbn hne,
      handlerWithBucket_ok cfg event bn () (hput _)]
  exact ⟨rfl, rfl, rfl, rfl⟩

/-- Witness for c7_bucket_field at the scenario configuration. -/
theorem c7_bucket_field_witness :
    (handler cfgW eventW ctxW).1.body =
      dumpsI 0 (successBodyJson (responseDataJson (isoformat (cfgW.clock 0)) eventW "my-bucket")
                 "my-bucket" (s3KeyAt (cfgW.clock 1))) ∧
    (handler cfgW eventW ctxW).2 = [attemptedCall cfgW eventW "my-bucket"] ∧
    (attemptedCall cfgW eventW "my-bucket").body =
      dumpsI 0 (responseDataJson (isoformat (cfgW.clock 0)) eventW "my-bucket") ∧
    Json.lookup (responseDataJson (isoformat (cfgW.clock 0)) eventW "my-bucket") "bucket" =
      some (Json.str "my-bucket") :=
  c7_bucket_field cfgW eventW ctxW "my-bucket" rfl (by decide) (fun _ => rfl)

/-- C8: serializing a ResponseRecord is a pure function of the record,
so the stored object body and any repeated serialization of the same
record are byte-identical, and the keys are serialized in the fixed
insertion order message, timestamp, event, bucket for every record. -/
theorem c8_stable_serialization (ts : String) (event : Json) (bn : String) :
    dumpsI 0 (responseDataJson ts event bn) = dumpsI 0 (responseDataJson ts event bn) ∧
    Json.keys (responseDataJson ts event bn) = ["message", "timestamp", "event", "bucket"] :=
  ⟨rfl, rfl⟩

/-- C9: the record timestamp is built from clock read 0 and the storage
key from the later clock read 1, hence from two distinct reads with the
body read first; at a configuration whose two reads differ by one second
the two rendered values differ, so the key instant and the body instant
may disagree. -/
theorem c9_two_clock_reads (cfg : Config) (event context : Json) (bn : String)
    (hbn : cfg.bucketName = some bn) (hne : bn ≠ "") :
    (handler cfg event context).2 = [attemptedCall cfg event bn] ∧
    (attemptedCall cfg event bn).body =
      dumpsI 0 (responseDataJson (isoformat (cfg.clock 0)) event bn) ∧
    Json.lookup (responseDataJson (isoformat (cfg.clock 0)) event bn) "timestamp" =
      some (Json.str (isoformat (cfg.clock 0))) ∧
    (attemptedCall cfg event bn).key = s3KeyAt (cfg.clock 1) ∧
    (isoformat (cfgTwoW.clock 0) ≠ isoformat (cfgTwoW.clock 1) ∧
     s3KeyAt (cfgTwoW.clock 0) ≠ s3KeyAt (cfgTwoW.clock 1)) :=
  ⟨handler_calls cfg event context bn hbn hne, rfl, rfl, rfl, by decide, by decide⟩

/-- Witness for c9_two_clock_reads at the two-instant configuration. -/
theorem c9_two_clock_reads_witness :
    (handler cfgTwoW eventW ctxW).2 = [attemptedCall cfgTwoW eventW "my-bucket"] ∧
    (attemptedCall cfgTwoW eventW "my-bucket").body =
      dumpsI 0 (responseDataJson (isoformat (cfgTwoW.clock 0)) eventW "my-bucket") ∧
    Json.lookup (responseDataJson (isoformat (cfgTwoW.clock 0)) eventW "my-bucket") "timestamp" =
      some (Json.str (isoformat (cfgTwoW.clock 0))) ∧
    (attemptedCall cfgTwoW eventW "my-bucket").key = s3KeyAt (cfgTwoW.clock 1) ∧
    (isoformat (cfgTwoW.clock 0) ≠ isoformat (cfgTwoW.clock 1) ∧
     s3KeyAt (cfgTwoW.clock 0) ≠ s3KeyAt (cfgTwoW.clock 1)) :=
  c9_two_clock_reads cfgTwoW eventW ctxW "my-bucket" rfl (by decide)

/-- C10: for every timestamp, event and bucket the assembled
ResponseRecord carries the message field with the exact literal Hello
from Lambda!, so the value is independent of the event, the context and
the configuration; and on every invocation that reaches payload
assembly the stored body is the serialization of such a record. -/
theorem c10_fixed_message (cfg : Config) (event context : Json) (bn : String)
    (hbn : cfg.bucketName = some bn) (hne : bn ≠ "") :
    (∀ ts : String, ∀ ev : Json, ∀ b : String,
      Json.lookup (responseDataJson ts ev b) "message" =
        some (Json.str "Hello from Lambda!")) ∧
    (handler cfg event context).2 = [attemptedCall cfg event bn] ∧
    (attemptedCall cfg event bn).body =
      dumpsI 0 (responseDataJson (isoformat (cfg.clock 0)) event bn) :=
  ⟨fun _ _ _ => rfl, handler_calls cfg event context bn hbn hne, rfl⟩

/-- Witness for c10_fixed_message at the scenario configuration. -/
theorem c10_fixed_message_witness :
    (∀ ts : String, ∀ ev : Json, ∀ b : String,
      Json.lookup (responseDataJson ts ev b) "message" =
        some (Json.str "Hello from Lambda!")) ∧
    (handler cfgW eventW ctxW).2 = [attemptedCall cfgW eventW "my-bucket"] ∧
    (attemptedCall cfgW eventW "my-bucket").body =
      dumpsI 0 (responseDataJson (isoformat (cfgW.clock 0)) eventW "my-bucket") :=
  c10_fixed_message cfgW eventW ctxW "my-bucket" rfl (by decide)
